/-
  Verification of the kauth authentication broker (krezh/kauth).

  Shallow embedding of the parts of the code the claims speak about:

  * pkg/jwt/jwt.go            — the stateless token manager (session and
    refresh envelopes).  The cryptographic primitives (AES-GCM, HMAC-SHA256,
    base64, JSON) are abstracted into an `Env` of functions together with the
    round-trip laws the Go standard library guarantees; the control flow,
    the order of the validation steps and the error mapping follow the Go
    source line by line.
  * pkg/handlers/refresh.go   — the /refresh handler `HandleRefresh`.
  * pkg/handlers/login.go     — the /watch validation-error mapping.
  * pkg/handlers/login_crd.go — the CRD watch notifier `watchSessions`.
  * pkg/session/client.go     — `sanitizeName` (session-record key derivation).
  * pkg/validation            — `SanitizeToResourceName`.
  * pkg/middleware            — `RateLimiter.Middleware` and `CORS`.

  Times are modelled as integers (Go `time.Time` instants); `t1.After t2`
  is `t1 > t2`.  Byte strings and encoded tokens are abstract types `B`
  and `T` of the `Env`, instantiated with a concrete inductive `Blob`
  for evaluation witnesses.
-/
import Mathlib

namespace Kauth

/-! ## Token manager data model (pkg/jwt/jwt.go) -/

/-- `SessionToken` struct of pkg/jwt/jwt.go: OAuth flow state. -/
structure SessionTok where
  state : String
  verifier : String
  createdAt : Int
  expiresAt : Int
deriving DecidableEq, Repr

/-- `RefreshToken` struct of pkg/jwt/jwt.go: refresh-token data. -/
structure RefreshTok where
  userEmail : String
  oidcRefreshToken : String
  rotationCounter : Int
  issuedAt : Int
  expiresAt : Int
deriving DecidableEq, Repr

/-- The error values of pkg/jwt/jwt.go.  `ErrInvalidToken`, `ErrExpiredToken`
    and `ErrInvalidSignature` are the three sentinel errors; `decryptFailed`
    stands for the wrapped error `fmt.Errorf("failed to decrypt ...: %w", err)`
    that `ValidateSessionToken`/`ValidateRefreshToken` return when
    `m.decrypt` fails — it is a distinct error value, not one of the
    sentinels. -/
inductive JwtErr where
  | invalidToken
  | expiredToken
  | invalidSignature
  | decryptFailed
deriving DecidableEq, Repr

/-- The cryptographic and serialization primitives used by `Manager`
    (pkg/jwt/jwt.go), abstracted as functions:
    `b64encode`/`b64decode` — `base64.URLEncoding` Encode/Decode;
    `sign` — `m.sign` (prepend HMAC-SHA256);
    `verify` — `m.verify` (split, constant-time compare; the Go function
    fails only with `ErrInvalidSignature`, so failure is `none`);
    `encrypt`/`decrypt` — `m.encrypt`/`m.decrypt` (AES-GCM, fresh nonce);
    `marshal*`/`unmarshal*` — `json.Marshal`/`json.Unmarshal`. -/
structure Env (B T : Type) where
  b64encode : B → T
  b64decode : T → Option B
  sign : B → B
  verify : B → Option B
  encrypt : Nat → B → B
  decrypt : B → Option B
  marshalSession : SessionTok → B
  unmarshalSession : B → Option SessionTok
  marshalRefresh : RefreshTok → B
  unmarshalRefresh : B → Option RefreshTok

/-- Round-trip laws the Go library functions guarantee: base64 decoding
    inverts encoding, `m.verify ∘ m.sign = id` (hmac is deterministic),
    `gcm.Open` inverts `gcm.Seal`, `json.Unmarshal` inverts `json.Marshal`
    on these two structs. -/
structure EnvLawful {B T : Type} (E : Env B T) : Prop where
  b64_rt : ∀ b, E.b64decode (E.b64encode b) = some b
  verify_sign : ∀ b, E.verify (E.sign b) = some b
  decrypt_encrypt : ∀ n b, E.decrypt (E.encrypt n b) = some b
  unmarshal_marshal_session : ∀ s, E.unmarshalSession (E.marshalSession s) = some s
  unmarshal_marshal_refresh : ∀ r, E.unmarshalRefresh (E.marshalRefresh r) = some r

variable {B T : Type}

/-- `Manager.CreateSessionToken` (jwt.go lines 64-89): build the struct with
    `CreatedAt = now`, `ExpiresAt = now + ttl`, marshal, encrypt with a fresh
    nonce, sign, base64-encode. -/
def createSessionTok (E : Env B T) (nonce : Nat) (state verifier : String)
    (now ttl : Int) : T :=
  E.b64encode (E.sign (E.encrypt nonce
    (E.marshalSession ⟨state, verifier, now, now + ttl⟩)))

/-- `Manager.ValidateSessionToken` (jwt.go lines 92-123), step for step:
    base64-decode (failure ⇒ `ErrInvalidToken`), `m.verify` (failure ⇒
    `ErrInvalidSignature`), `m.decrypt` (failure ⇒ wrapped decrypt error),
    `json.Unmarshal` (failure ⇒ `ErrInvalidToken`), then
    `time.Now().After(session.ExpiresAt)` ⇒ `ErrExpiredToken`
    (`After` is strict: expired iff `expiresAt < now`). -/
def validateSessionTok (E : Env B T) (now : Int) (token : T) :
    Except JwtErr SessionTok :=
  match E.b64decode token with
  | none => .error .invalidToken
  | some signed =>
    match E.verify signed with
    | none => .error .invalidSignature
    | some encrypted =>
      match E.decrypt encrypted with
      | none => .error .decryptFailed
      | some data =>
        match E.unmarshalSession data with
        | none => .error .invalidToken
        | some session =>
          if session.expiresAt < now then .error .expiredToken
          else .ok session

/-- `Manager.CreateRefreshToken` (jwt.go lines 126-152). -/
def createRefreshTok (E : Env B T) (nonce : Nat)
    (userEmail oidcRefreshToken : String) (rotationCounter : Int)
    (now ttl : Int) : T :=
  E.b64encode (E.sign (E.encrypt nonce
    (E.marshalRefresh ⟨userEmail, oidcRefreshToken, rotationCounter, now, now + ttl⟩)))

/-- `Manager.ValidateRefreshToken` (jwt.go lines 155-186); identical pipeline
    to `ValidateSessionToken` (the `allowedRotationWindow` argument is unused
    by the Go function body). -/
def validateRefreshTok (E : Env B T) (now : Int) (token : T) :
    Except JwtErr RefreshTok :=
  match E.b64decode token with
  | none => .error .invalidToken
  | some signed =>
    match E.verify signed with
    | none => .error .invalidSignature
    | some encrypted =>
      match E.decrypt encrypted with
      | none => .error .decryptFailed
      | some data =>
        match E.unmarshalRefresh data with
        | none => .error .invalidToken
        | some refresh =>
          if refresh.expiresAt < now then .error .expiredToken
          else .ok refresh

/-! ### A concrete instantiation of the primitives, for evaluation.
    `Blob` is a free term model of the byte strings that occur: plaintexts,
    ciphertexts, signed blobs; the encoded-token type is `Option Blob`. -/

/-- Free term model of the byte strings handled by the token manager. -/
inductive Blob where
  | sess (s : SessionTok)
  | refr (r : RefreshTok)
  | encd (nonce : Nat) (b : Blob)
  | signedB (b : Blob)
  | raw (n : Nat)
deriving DecidableEq, Repr

/-- Concrete `Env` over `Blob`: every primitive is the corresponding `Blob`
    constructor, every inverse is the corresponding pattern match. -/
def blobEnv : Env Blob (Option Blob) where
  b64encode := some
  b64decode := id
  sign := .signedB
  verify := fun b => match b with | .signedB d => some d | _ => none
  encrypt := .encd
  decrypt := fun b => match b with | .encd _ d => some d | _ => none
  marshalSession := .sess
  unmarshalSession := fun b => match b with | .sess s => some s | _ => none
  marshalRefresh := .refr
  unmarshalRefresh := fun b => match b with | .refr r => some r | _ => none

/-! ## Refresh flow handler (pkg/handlers/refresh.go) -/

/-- The `RefreshHandler` fields `HandleRefresh` reads. -/
structure RefreshCfg where
  clusterName : String
  clusterServer : String
  clusterCA : String
  refreshTokenTTL : Int
  rotationWindow : Int

/-- The `oauth2.Token` the provider returns from
    `OAuth2Config.TokenSource(ctx, oldToken).Token()`:
    `refreshTok` is `newToken.RefreshToken`, `idToken` is
    `newToken.Extra("id_token")` (`none` = absent or not a string), `expiry`
    is `newToken.Expiry` (`none` models `Expiry.IsZero()`). -/
structure ProviderToken where
  refreshTok : String
  idToken : Option String
  expiry : Option Int

/-- Claims struct decoded from the verified ID token; only `Email` is used
    by the control flow. -/
structure IdClaims where
  email : String
deriving DecidableEq, Repr

/-- Outcome of `provider.VerifyIDToken` followed by
    `verified.Claims(&claims)`: `err` = verification failed;
    `ok none` = claims decode failed; `ok (some c)` = decoded claims. -/
inductive VerifyOut where
  | err
  | ok (claims : Option IdClaims)

/-- A /refresh HTTP request.  `body = none` models a JSON decode error;
    `body = some none` models a decoded body whose `refresh_token` is the
    empty string; `body = some (some tok)` carries the envelope. -/
structure RefreshReq (T : Type) where
  method : String
  body : Option (Option T)

/-- The JSON success body of /refresh (`RefreshResponse`). -/
structure RefreshResp (T : Type) where
  idToken : String
  refreshToken : T
  expiresIn : Int
  tokenType : String
  kubeconfig : String

/-- The observable outcome of one `HandleRefresh` call: HTTP status, error
    body (empty on success), the plaintexts of every refresh envelope the
    handler minted via `CreateRefreshToken`, and the success response. -/
structure RefreshResult (T : Type) where
  status : Nat
  body : String
  minted : List RefreshTok
  resp : Option (RefreshResp T)

/-- `generateKubeconfig` (refresh.go lines 164-193): the Go `fmt.Sprintf`
    template; the `idToken` parameter is accepted and unused, as in the
    source (the kubeconfig uses the exec credential plugin). -/
def generateKubeconfig (cfg : RefreshCfg) (email idToken : String) : String :=
  "apiVersion: v1\nkind: Config\nclusters:\n- name: " ++ cfg.clusterName ++
  "\n  cluster:\n    server: " ++ cfg.clusterServer ++
  "\n    certificate-authority-data: " ++ cfg.clusterCA ++
  "\nusers:\n- name: " ++ email ++
  "\n  user:\n    exec:\n      apiVersion: client.authentication.k8s.io/v1" ++
  "\n      command: kauth\n      args:\n      - get-token\n      interactiveMode: Never" ++
  "\ncontexts:\n- name: " ++ cfg.clusterName ++
  "\n  context:\n    cluster: " ++ cfg.clusterName ++
  "\n    user: " ++ email ++
  "\ncurrent-context: " ++ cfg.clusterName ++ "\n"

/-- `RefreshHandler.HandleRefresh` (refresh.go lines 56-162), step for step:
    non-POST ⇒ 405 "Method not allowed"; JSON decode error ⇒ 400 "Invalid
    request body"; empty `refresh_token` ⇒ 400 "Missing refresh_token";
    `ValidateRefreshToken` error ⇒ 401, body "Refresh token expired" for
    the expired sentinel and "Invalid refresh token" for invalid-signature
    and every other failure; provider refresh failure ⇒ 401; missing
    `id_token` ⇒ 500; `VerifyIDToken` failure ⇒ 500; claims decode
    failure ⇒ 500; email mismatch ⇒ 401 "Token user mismatch";
    otherwise mint the rotated envelope (`rotationCounter + 1`, the new
    provider refresh token, TTL `refreshTokenTTL`) and answer 200. -/
def handleRefresh (E : Env B T) (cfg : RefreshCfg) (now : Int) (nonce : Nat)
    (tokenSource : String → Option ProviderToken)
    (verifyIdToken : String → VerifyOut)
    (req : RefreshReq T) : RefreshResult T :=
  if req.method ≠ "POST" then ⟨405, "Method not allowed", [], none⟩
  else
    match req.body with
    | none => ⟨400, "Invalid request body", [], none⟩
    | some none => ⟨400, "Missing refresh_token", [], none⟩
    | some (some tok) =>
      match validateRefreshTok E now tok with
      | .error .expiredToken => ⟨401, "Refresh token expired", [], none⟩
      | .error .invalidSignature => ⟨401, "Invalid refresh token", [], none⟩
      | .error _ => ⟨401, "Invalid refresh token", [], none⟩
      | .ok refreshToken =>
        match tokenSource refreshToken.oidcRefreshToken with
        | none => ⟨401, "Failed to refresh token", [], none⟩
        | some newToken =>
          match newToken.idToken with
          | none => ⟨500, "No ID token in refresh response", [], none⟩
          | some idToken =>
            match verifyIdToken idToken with
            | .err => ⟨500, "ID token verification failed", [], none⟩
            | .ok none => ⟨500, "Failed to extract claims", [], none⟩
            | .ok (some claims) =>
              if claims.email ≠ refreshToken.userEmail then
                ⟨401, "Token user mismatch", [], none⟩
              else
                let expiresIn : Int :=
                  match newToken.expiry with
                  | none => 0
                  | some e => e - now
                ⟨200, "",
                 [⟨claims.email, newToken.refreshTok,
                   refreshToken.rotationCounter + 1, now, now + cfg.refreshTokenTTL⟩],
                 some ⟨idToken,
                       createRefreshTok E nonce claims.email newToken.refreshTok
                         (refreshToken.rotationCounter + 1) now cfg.refreshTokenTTL,
                       expiresIn, "Bearer",
                       generateKubeconfig cfg claims.email idToken⟩⟩

/-! ## Session record and /watch (pkg/apis v1alpha1, pkg/handlers) -/

/-- `OAuthSessionStatus` (pkg/apis/kauth.io/v1alpha1): the status block of
    the session record; `kubeconfig` is the field the CRD notifier
    (login_crd.go) and the spec list alongside the others. -/
structure RecStatus where
  ready : Bool
  email : String
  kubeconfig : String
  refreshToken : String
  error : String
  completedAt : Option Int
deriving DecidableEq, Repr

/-- The notifier condition of `watchSessions` (login_crd.go line 50):
    `session.Status.Ready || session.Status.Error != ""`. -/
def RecStatus.terminal (st : RecStatus) : Bool :=
  st.ready || st.error != ""

/-- An HTTP outcome: status and body. -/
structure WatchOut where
  status : Nat
  body : String
deriving DecidableEq, Repr

/-- Modelled from the spec: the CRD-backed `/watch` handler.  It is not
    under src/ — src/ carries only the in-memory variant
    (pkg/handlers/login.go `HandleWatch`) and the CRD notifier companion
    (login_crd.go) that references the missing handler's fields.  Per spec
    §4.3 Watch: validate the envelope — the error mapping is the one
    src/pkg/handlers/login.go HandleWatch implements: absent token ⇒ 400
    "No session_token specified", `ErrExpiredToken` ⇒ 401 "Session
    expired", any other validation failure ⇒ 401 "Invalid session token" —
    then `get(state)`; a missing record ⇒ 404; a found record is
    streamed (modelled as 200). -/
def handleWatchCRD (E : Env B T) (now : Int)
    (store : String → Option RecStatus) (sessionToken : Option T) : WatchOut :=
  match sessionToken with
  | none => ⟨400, "No session_token specified"⟩
  | some tok =>
    match validateSessionTok E now tok with
    | .error .expiredToken => ⟨401, "Session expired"⟩
    | .error _ => ⟨401, "Invalid session token"⟩
    | .ok session =>
      match store session.state with
      | none => ⟨404, "Session not found"⟩
      | some _ => ⟨200, ""⟩

/-! ## Store-update / notifier ordering (login_crd.go and spec §4.3, §5) -/

/-- Events observable in one replica of the broker, for the completion
    path of a login: a durable `update_status` write of a session record,
    and an in-memory notification delivered to local /watch listeners. -/
inductive BrokerEv where
  | updateStatus (state : String) (st : RecStatus)
  | notifyLocal (state : String) (st : RecStatus)
deriving DecidableEq, Repr

/-- Replica-visible state: the durable store (latest write first) and the
    pending watch events the store's change stream has emitted but the
    notifier has not consumed yet. -/
structure BrokerSt where
  store : List (String × RecStatus)
  queue : List (String × RecStatus)
deriving DecidableEq, Repr

/-- Modelled from the spec: the CRD-backed callback handler (missing from
    src/) finishes a login by writing the terminal outcome with
    `update_status` (spec §4.3 step 12, §5 «written to the durable store
    before any in-memory notification»); the store's watch contract turns
    every write into an `Added`/`Modified` event (spec §4.2); the notifier
    `watchSessions` (src/pkg/handlers/login_crd.go) delivers an in-memory
    notification to local listeners only when it consumes such an event
    whose status is terminal.  `BrokerStep` is the resulting transition
    relation; `updateStatus` appends a watch event, `notifyLocal` consumes
    one. -/
inductive BrokerStep : BrokerSt → BrokerEv → BrokerSt → Prop where
  | update (σ : BrokerSt) (s : String) (st : RecStatus) :
      BrokerStep σ (.updateStatus s st) ⟨(s, st) :: σ.store, σ.queue ++ [(s, st)]⟩
  | notify (σ : BrokerSt) (s : String) (st : RecStatus)
      (hq : (s, st) ∈ σ.queue) (hterm : st.terminal = true) :
      BrokerStep σ (.notifyLocal s st) ⟨σ.store, σ.queue.erase (s, st)⟩

/-- A run of the replica: a sequence of steps from an initial state. -/
inductive BrokerRun : BrokerSt → List BrokerEv → BrokerSt → Prop where
  | nil (σ : BrokerSt) : BrokerRun σ [] σ
  | cons {σ σ' σ'' : BrokerSt} {e : BrokerEv} {es : List BrokerEv} :
      BrokerStep σ e σ' → BrokerRun σ' es σ'' → BrokerRun σ (e :: es) σ''

/-! ## Session-record key derivation (pkg/session/client.go, pkg/validation) -/

/-- The per-rune mapping of `SanitizeToResourceName`: keep `a-z` and `0-9`,
    map `A-Z` to lowercase (`ch - 'A' + 'a'`), everything else to `-`. -/
def mapRune (c : Char) : Char :=
  if ('a' ≤ c ∧ c ≤ 'z') ∨ ('0' ≤ c ∧ c ≤ '9') then c
  else if 'A' ≤ c ∧ c ≤ 'Z' then Char.ofNat (c.toNat - 'A'.toNat + 'a'.toNat)
  else '-'

/-- The cutset of `strings.TrimLeft/TrimRight(name, "-.")`. -/
def isDashDot (c : Char) : Bool :=
  c = '-' || c = '.'

/-- `strings.TrimLeft(name, "-.")`. -/
def trimLeftDD : List Char → List Char
  | [] => []
  | c :: cs => if isDashDot c then trimLeftDD cs else c :: cs

/-- `strings.TrimRight(name, "-.")`. -/
def trimRightDD (l : List Char) : List Char :=
  (trimLeftDD l.reverse).reverse

/-- `validation.SanitizeToResourceName` (pkg/validation): empty input ⇒
    "default"; map every rune; trim leading and trailing `-`/`.`; if longer
    than 63 truncate to 63 and re-trim the right end; empty result ⇒
    "default".  After `mapRune` every character is one-byte ASCII, so Go's
    byte-indexed `name[:63]` is `List.take 63`. -/
def sanitizeToResourceName (input : List Char) : List Char :=
  if input = [] then "default".toList
  else
    let name := trimRightDD (trimLeftDD (input.map mapRune))
    let name := if 63 < name.length then trimRightDD (name.take 63) else name
    if name = [] then "default".toList else name

/-- `session.sanitizeName` (pkg/session/client.go lines 203-211):
    sanitize, truncate to 57 bytes when the "oauth-" prefix would push the
    length over 63, then prepend "oauth-". -/
def sanitizeName (state : List Char) : List Char :=
  let sanitized := sanitizeToResourceName state
  let sanitized := if 63 < sanitized.length + 6 then sanitized.take 57 else sanitized
  "oauth-".toList ++ sanitized

/-- The `sanitize` function exactly as claim C7 words it: lowercase ASCII
    letters, map non-alphanumerics to `-`, strip leading and trailing
    non-alphanumerics, replace an empty result with "default" — without
    the truncate-to-63-and-re-trim step the source function also performs. -/
def sanitizeClaimC7 (input : List Char) : List Char :=
  let name := trimRightDD (trimLeftDD (input.map mapRune))
  if name = [] then "default".toList else name

/-- The key-derivation formula exactly as claim C7 words it:
    `"oauth-" + truncate(sanitize(state), 57)`. -/
def keyClaimC7 (state : List Char) : List Char :=
  "oauth-".toList ++ (sanitizeClaimC7 state).take 57

/-- An input on which claim C7's formula disagrees with the code:
    50 `a`, 13 `-`, one `b` (64 characters). -/
def c7CexState : List Char :=
  List.replicate 50 'a' ++ List.replicate 13 '-' ++ ['b']

/-- The failing input for claim C8: 56 `a`, one `-`, 4 `b` (61 characters).
    `sanitizeToResourceName` keeps it unchanged (61 ≤ 63, alphanumeric at
    both ends), and `sanitizeName`'s 57-byte truncation then cuts directly
    after the dash. -/
def c8FailState : List Char :=
  List.replicate 56 'a' ++ '-' :: List.replicate 4 'b'

/-- Is a character ASCII lowercase-alphanumeric? (DNS-label alphabet
    without the separator.) -/
def isLowerAlnum (c : Char) : Bool :=
  ('a' ≤ c && c ≤ 'z') || ('0' ≤ c && c ≤ '9')

/-! ## Security middleware (pkg/middleware) -/

/-- The request data `RateLimiter.Middleware` reads; `Header.Get` of an
    absent header is the empty string. -/
structure RLReq where
  xRealIP : String
  xForwardedFor : String
  remoteAddr : String
deriving DecidableEq, Repr

/-- An HTTP response produced by a wrapped handler. -/
structure HttpOut where
  status : Nat
  body : String
deriving DecidableEq, Repr

/-- The client-IP selection of `RateLimiter.Middleware` (pkg/middleware):
    `X-Real-IP` if non-empty, else the X-Forwarded-For header value
    (unsplit), else `r.RemoteAddr`. -/
def clientIP (r : RLReq) : String :=
  if r.xRealIP ≠ "" then r.xRealIP
  else if r.xForwardedFor ≠ "" then r.xForwardedFor
  else r.remoteAddr

/-- The first entry of a comma-separated X-Forwarded-For header value:
    the characters before the first comma. -/
def firstForwardedEntry (s : String) : String :=
  String.mk (s.toList.takeWhile (fun c => c ≠ ','))

/-- The client-IP exactly as claim C9 words it: `X-Real-IP` if non-empty,
    else the *first entry* of X-Forwarded-For, else the remote address. -/
def clientIPClaimC9 (r : RLReq) : String :=
  if r.xRealIP ≠ "" then r.xRealIP
  else if r.xForwardedFor ≠ "" then firstForwardedEntry r.xForwardedFor
  else r.remoteAddr

/-- A request on which claim C9's client-IP disagrees with the code:
    no X-Real-IP and a two-entry X-Forwarded-For header. -/
def c9CexReq : RLReq :=
  ⟨"", "1.2.3.4, 5.6.7.8", "9.9.9.9:1234"⟩

/-- `RateLimiter.Middleware` (pkg/middleware): fetch the token bucket for
    the client IP; `limiter.Allow()` is abstracted as the predicate
    `allow` over bucket keys.  On deny answer 429 "Rate limit exceeded"
    without invoking `next`; the Bool records whether `next` ran. -/
def rateLimitMiddleware (allow : String → Bool) (next : RLReq → HttpOut)
    (r : RLReq) : HttpOut × Bool :=
  if allow (clientIP r) then (next r, true)
  else (⟨429, "Rate limit exceeded"⟩, false)

/-- A request as the CORS middleware sees it. -/
structure CorsReq where
  origin : String
  method : String
deriving DecidableEq, Repr

/-- The observable outcome of the CORS middleware: the Access-Control
    headers it set, status, body, and whether the wrapped handler ran. -/
structure CorsOut where
  acHeaders : List (String × String)
  status : Nat
  body : String
  nextRan : Bool
deriving DecidableEq, Repr

/-- `middleware.CORS` (pkg/middleware): a request's origin is allowed when
    the configured list contains `"*"` or the literal origin; only then the
    four Access-Control headers are set (with origin `""` echoed as `"*"`).
    Every OPTIONS request is answered 204 with an empty body without
    invoking the wrapped handler; other methods fall through to `next`. -/
def corsMiddleware (allowedOrigins : List String) (next : CorsReq → HttpOut)
    (r : CorsReq) : CorsOut :=
  let origin := r.origin
  let allowed := allowedOrigins.contains "*" || allowedOrigins.contains origin
  let hdrs :=
    if allowed then
      [("Access-Control-Allow-Origin", if origin = "" then "*" else origin),
       ("Access-Control-Allow-Methods", "GET, POST, OPTIONS"),
       ("Access-Control-Allow-Headers", "Content-Type, Authorization"),
       ("Access-Control-Max-Age", "86400")]
    else []
  if r.method = "OPTIONS" then ⟨hdrs, 204, "", false⟩
  else
    let out := next r
    ⟨hdrs, out.status, out.body, true⟩

/-! ## Concrete fixtures for witnesses -/

/-- A terminal (ready) record status. -/
def wReadyStatus : RecStatus :=
  ⟨true, "u@e", "kubecfg", "rtok", "", some 1⟩

/-- Refresh-handler config for witnesses. -/
def wCfg : RefreshCfg :=
  ⟨"cl", "https://api", "Q0E=", 100, 2⟩

/-- Provider behaviour for witnesses: the stored provider refresh token
    "ort" yields a new token pair with ID token "idT". -/
def wTokenSource : String → Option ProviderToken :=
  fun s => if s = "ort" then some ⟨"newort", some "idT", some 40⟩ else none

/-- Verifier behaviour for witnesses: "idT" verifies with email "u@e". -/
def wVerify : String → VerifyOut :=
  fun s => if s = "idT" then .ok (some ⟨"u@e"⟩) else .err

/-- A valid refresh envelope for witnesses: counter 4, expiry 50. -/
def wRefreshEnvelope : Option Blob :=
  createRefreshTok blobEnv 0 "u@e" "ort" 4 0 50

/-- A verifier that reports a *different* email, for the mismatch branch. -/
def wVerifyMismatch : String → VerifyOut :=
  fun s => if s = "idT" then .ok (some ⟨"v@e"⟩) else .err

/-! # Theorems -/

theorem blobEnv_lawful : EnvLawful blobEnv := by
  constructor <;> intros <;> rfl

/-! ## Claims C5 and C6: validation order and create/validate round-trip -/

/-- C5 — Envelope validation (session and refresh) proceeds in strict order:
    base64 decode (failure ⇒ InvalidToken), then MAC verification (failure ⇒
    InvalidSignature), then decryption — whose failure yields the *wrapped
    decrypt error*, a distinct value, not the InvalidToken sentinel —, then
    field decoding (failure ⇒ InvalidToken), then the expiry check, which
    rejects with ExpiredToken iff `expiresAt < now` (strictly; at
    `expiresAt = now` the envelope is accepted).  No field is returned
    before the expiry check succeeds: a returned envelope always satisfies
    `now ≤ expiresAt`, and every earlier failure returns only an error. -/
theorem c5_validation_order (E : Env B T) (now : Int) (t : T) :
    (E.b64decode t = none →
      validateSessionTok E now t = .error .invalidToken ∧
      validateRefreshTok E now t = .error .invalidToken) ∧
    (∀ signed, E.b64decode t = some signed → E.verify signed = none →
      validateSessionTok E now t = .error .invalidSignature ∧
      validateRefreshTok E now t = .error .invalidSignature) ∧
    (∀ signed enc, E.b64decode t = some signed → E.verify signed = some enc →
      E.decrypt enc = none →
      validateSessionTok E now t = .error .decryptFailed ∧
      validateRefreshTok E now t = .error .decryptFailed) ∧
    (∀ signed enc data, E.b64decode t = some signed →
      E.verify signed = some enc → E.decrypt enc = some data →
      (E.unmarshalSession data = none →
        validateSessionTok E now t = .error .invalidToken) ∧
      (E.unmarshalRefresh data = none →
        validateRefreshTok E now t = .error .invalidToken) ∧
      (∀ s, E.unmarshalSession data = some s →
        (s.expiresAt < now → validateSessionTok E now t = .error .expiredToken) ∧
        (now ≤ s.expiresAt → validateSessionTok E now t = .ok s)) ∧
      (∀ r, E.unmarshalRefresh data = some r →
        (r.expiresAt < now → validateRefreshTok E now t = .error .expiredToken) ∧
        (now ≤ r.expiresAt → validateRefreshTok E now t = .ok r))) ∧
    (∀ s, validateSessionTok E now t = .ok s → now ≤ s.expiresAt) ∧
    (∀ r, validateRefreshTok E now t = .ok r → now ≤ r.expiresAt) := by
  refine ⟨fun h => ?_, fun signed h1 h2 => ?_, fun signed enc h1 h2 h3 => ?_,
    fun signed enc data h1 h2 h3 => ⟨fun h4 => ?_, fun h4 => ?_,
      fun s h4 => ⟨fun h5 => ?_, fun h5 => ?_⟩, fun r h4 => ⟨fun h5 => ?_, fun h5 => ?_⟩⟩,
    fun s hok => ?_, fun r hok => ?_⟩
  · exact ⟨by simp [validateSessionTok, h], by simp [validateRefreshTok, h]⟩
  · exact ⟨by simp [validateSessionTok, h1, h2], by simp [validateRefreshTok, h1, h2]⟩
  · exact ⟨by simp [validateSessionTok, h1, h2, h3], by simp [validateRefreshTok, h1, h2, h3]⟩
  · simp [validateSessionTok, h1, h2, h3, h4]
  · simp [validateRefreshTok, h1, h2, h3, h4]
  · simp [validateSessionTok, h1, h2, h3, h4, h5]
  · simp [validateSessionTok, h1, h2, h3, h4, not_lt.mpr h5]
  · simp [validateRefreshTok, h1, h2, h3, h4, h5]
  · simp [validateRefreshTok, h1, h2, h3, h4, not_lt.mpr h5]
  · unfold validateSessionTok at hok
    rcases hd : E.b64decode t with _ | signed <;> simp only [hd] at hok
    · exact Except.noConfusion hok
    rcases hv : E.verify signed with _ | enc <;> simp only [hv] at hok
    · exact Except.noConfusion hok
    rcases hc : E.decrypt enc with _ | data <;> simp only [hc] at hok
    · exact Except.noConfusion hok
    rcases hu : E.unmarshalSession data with _ | s' <;> simp only [hu] at hok
    · exact Except.noConfusion hok
    by_cases hx : s'.expiresAt < now
    · simp [if_pos hx] at hok
    · rw [if_neg hx] at hok
      simp only [Except.ok.injEq] at hok
      subst hok; exact not_lt.mp hx
  · unfold validateRefreshTok at hok
    rcases hd : E.b64decode t with _ | signed <;> simp only [hd] at hok
    · exact Except.noConfusion hok
    rcases hv : E.verify signed with _ | enc <;> simp only [hv] at hok
    · exact Except.noConfusion hok
    rcases hc : E.decrypt enc with _ | data <;> simp only [hc] at hok
    · exact Except.noConfusion hok
    rcases hu : E.unmarshalRefresh data with _ | r' <;> simp only [hu] at hok
    · exact Except.noConfusion hok
    by_cases hx : r'.expiresAt < now
    · simp [if_pos hx] at hok
    · rw [if_neg hx] at hok
      simp only [Except.ok.injEq] at hok
      subst hok; exact not_lt.mp hx

/-- C5 counterexample — the claim as stated is false on the code in two
    places, both exhibited on the concrete `Blob` model:
    (1) a token whose MAC verifies but whose payload does not decrypt fails
    with the wrapped decrypt error, a different error value from the
    InvalidToken sentinel the claim names; (2) a session envelope whose
    `expiresAt` equals `now` (so `expires_at ≤ now` holds) is *accepted*,
    not rejected with ExpiredToken: `time.Now().After` is strict. -/
theorem c5_counterexample :
    validateSessionTok blobEnv 0 (some (Blob.signedB (Blob.raw 0)))
        = .error .decryptFailed
    ∧ JwtErr.decryptFailed ≠ JwtErr.invalidToken
    ∧ validateSessionTok blobEnv 5 (createSessionTok blobEnv 0 "s" "v" 0 5)
        = .ok ⟨"s", "v", 0, 5⟩ :=
  ⟨rfl, by decide, rfl⟩

/-- C5 witness — the order theorem applied to the concrete `Blob` model:
    a token that fails MAC verification yields InvalidSignature. -/
theorem c5_validation_order_witness :
    validateSessionTok blobEnv 0 (some (Blob.raw 7)) = .error .invalidSignature :=
  ((c5_validation_order blobEnv 0 (some (Blob.raw 7))).2.1
    (Blob.raw 7) rfl rfl).1

/-- C6 — for every envelope the token manager produces (session or refresh),
    validating the encoded string at any time strictly before its
    `expiresAt = now + ttl` succeeds and returns exactly the fields that
    were encoded: validate ∘ create is the identity up to expiry. -/
theorem c6_create_validate_id (E : Env B T) (hE : EnvLawful E) (nonce : Nat)
    (now ttl t : Int) (ht : t < now + ttl) :
    (∀ state verifier,
      validateSessionTok E t (createSessionTok E nonce state verifier now ttl)
        = .ok ⟨state, verifier, now, now + ttl⟩) ∧
    (∀ email ort (ctr : Int),
      validateRefreshTok E t (createRefreshTok E nonce email ort ctr now ttl)
        = .ok ⟨email, ort, ctr, now, now + ttl⟩) := by
  constructor
  · intro state verifier
    simp [validateSessionTok, createSessionTok, hE.b64_rt, hE.verify_sign,
      hE.decrypt_encrypt, hE.unmarshal_marshal_session, not_lt.mpr (le_of_lt ht)]
  · intro email ort ctr
    simp [validateRefreshTok, createRefreshTok, hE.b64_rt, hE.verify_sign,
      hE.decrypt_encrypt, hE.unmarshal_marshal_refresh, not_lt.mpr (le_of_lt ht)]

/-- C6 witness — round-trip evaluated on the concrete `Blob` model at
    time 3, one tick before expiry 0 + 4. -/
theorem c6_create_validate_id_witness :
    validateSessionTok blobEnv 3 (createSessionTok blobEnv 1 "st" "vf" 0 4)
      = .ok ⟨"st", "vf", 0, 4⟩ :=
  (c6_create_validate_id blobEnv blobEnv_lawful 1 0 4 3 (by decide)).1 "st" "vf"

/-! ## Claims C3 and C4: the /refresh handler -/

/-- C3 — every refresh envelope `R` that `HandleRefresh` mints in response
    to a presented envelope decoding to `R'` carries
    `rotationCounter = R'.rotationCounter + 1` and
    `userEmail = R'.userEmail`, and that email is exactly the email claim
    of the newly verified identity token. -/
theorem c3_rotation (E : Env B T) (cfg : RefreshCfg) (now : Int) (nonce : Nat)
    (ts : String → Option ProviderToken) (vf : String → VerifyOut)
    (req : RefreshReq T) (tok : T) (R' R : RefreshTok)
    (hbody : req.body = some (some tok))
    (hval : validateRefreshTok E now tok = .ok R')
    (hm : R ∈ (handleRefresh E cfg now nonce ts vf req).minted) :
    R.rotationCounter = R'.rotationCounter + 1 ∧
    R.userEmail = R'.userEmail ∧
    (∃ nt idT, ts R'.oidcRefreshToken = some nt ∧ nt.idToken = some idT ∧
      vf idT = .ok (some ⟨R.userEmail⟩)) := by
  unfold handleRefresh at hm
  by_cases hmeth : req.method = "POST"
  · rw [if_neg (by simp [hmeth])] at hm
    simp only [hbody] at hm
    simp only [hval] at hm
    rcases hts : ts R'.oidcRefreshToken with _ | nt <;> simp only [hts] at hm
    · simp at hm
    rcases hid : nt.idToken with _ | idT <;> simp only [hid] at hm
    · simp at hm
    rcases hvf : vf idT with _ | cl <;> simp only [hvf] at hm
    · simp at hm
    rcases cl with _ | claims
    · simp at hm
    simp only [] at hm
    by_cases hne : claims.email = R'.userEmail
    · rw [if_neg (not_not_intro hne)] at hm
      simp only [List.mem_singleton] at hm
      subst hm
      exact ⟨rfl, hne, nt, idT, rfl, hid, hvf⟩
    · rw [if_pos hne] at hm
      simp at hm
  · rw [if_pos hmeth] at hm
    simp at hm

/-- C3 witness — a concrete refresh with counter 4 mints an envelope with
    counter 5 carrying the same email as the presented one and as the
    newly verified identity token. -/
theorem c3_rotation_witness :
    (⟨"u@e", "newort", 4 + 1, 10, 110⟩ : RefreshTok).rotationCounter
        = (⟨"u@e", "ort", 4, 0, 50⟩ : RefreshTok).rotationCounter + 1 ∧
    (⟨"u@e", "newort", 4 + 1, 10, 110⟩ : RefreshTok).userEmail
        = (⟨"u@e", "ort", 4, 0, 50⟩ : RefreshTok).userEmail ∧
    (∃ nt idT,
      wTokenSource (⟨"u@e", "ort", 4, 0, 50⟩ : RefreshTok).oidcRefreshToken = some nt ∧
      nt.idToken = some idT ∧
      wVerify idT = .ok (some ⟨(⟨"u@e", "newort", 4 + 1, 10, 110⟩ : RefreshTok).userEmail⟩)) :=
  c3_rotation blobEnv wCfg 10 0 wTokenSource wVerify
    ⟨"POST", some (some wRefreshEnvelope)⟩ wRefreshEnvelope
    ⟨"u@e", "ort", 4, 0, 50⟩ ⟨"u@e", "newort", 4 + 1, 10, 110⟩
    rfl rfl (by decide)

/-- C4 — the /refresh error paths: non-POST ⇒ 405; a decoded body lacking
    `refresh_token` ⇒ 400; an expired envelope ⇒ 401 with body "Refresh
    token expired"; an invalid signature or any other envelope-validation
    failure ⇒ 401 with body "Invalid refresh token" (the two 401 bodies
    are distinguishable); and an email claim differing from the envelope's
    `userEmail` ⇒ 401 with no envelope minted (nothing rotates). -/
theorem c4_refresh_errors (E : Env B T) (cfg : RefreshCfg) (now : Int)
    (nonce : Nat) (ts : String → Option ProviderToken)
    (vf : String → VerifyOut) (req : RefreshReq T) :
    (req.method ≠ "POST" →
      handleRefresh E cfg now nonce ts vf req
        = ⟨405, "Method not allowed", [], none⟩) ∧
    (req.method = "POST" → req.body = some none →
      handleRefresh E cfg now nonce ts vf req
        = ⟨400, "Missing refresh_token", [], none⟩) ∧
    (∀ tok, req.method = "POST" → req.body = some (some tok) →
      (validateRefreshTok E now tok = .error .expiredToken →
        handleRefresh E cfg now nonce ts vf req
          = ⟨401, "Refresh token expired", [], none⟩) ∧
      (∀ e, validateRefreshTok E now tok = .error e → e ≠ .expiredToken →
        handleRefresh E cfg now nonce ts vf req
          = ⟨401, "Invalid refresh token", [], none⟩) ∧
      (∀ R' nt idT claims, validateRefreshTok E now tok = .ok R' →
        ts R'.oidcRefreshToken = some nt → nt.idToken = some idT →
        vf idT = .ok (some claims) → claims.email ≠ R'.userEmail →
        handleRefresh E cfg now nonce ts vf req
          = ⟨401, "Token user mismatch", [], none⟩)) ∧
    ("Refresh token expired" ≠ "Invalid refresh token") := by
  refine ⟨fun h => ?_, fun h hb => ?_,
    fun tok h hb => ⟨fun hv => ?_, fun e hv he => ?_,
      fun R' nt idT claims hv hts hid hvf hne => ?_⟩, by decide⟩
  · rw [handleRefresh, if_pos h]
  · rw [handleRefresh, if_neg (by simp [h])]
    simp only [hb]
  · rw [handleRefresh, if_neg (by simp [h])]
    simp only [hb, hv]
  · rw [handleRefresh, if_neg (by simp [h])]
    simp only [hb, hv]
    cases e
    · rfl
    · exact absurd rfl he
    · rfl
    · rfl
  · rw [handleRefresh, if_neg (by simp [h])]
    simp only [hb, hv, hts, hid, hvf]
    rw [if_pos hne]

/-- C4 witness — the mismatch branch evaluated concretely: the provider
    reports email "v@e" for an envelope pinned to "u@e"; the handler
    answers 401 and mints nothing. -/
theorem c4_refresh_errors_witness :
    handleRefresh blobEnv wCfg 10 0 wTokenSource wVerifyMismatch
      ⟨"POST", some (some wRefreshEnvelope)⟩
      = ⟨401, "Token user mismatch", [], none⟩ :=
  ((c4_refresh_errors blobEnv wCfg 10 0 wTokenSource wVerifyMismatch
      ⟨"POST", some (some wRefreshEnvelope)⟩).2.2.1
    wRefreshEnvelope rfl rfl).2.2
    ⟨"u@e", "ort", 4, 0, 50⟩ ⟨"newort", some "idT", some 40⟩ "idT" ⟨"v@e"⟩
    rfl rfl rfl rfl (by decide)

/-! ## Claim C2: /watch error handling -/

/-- C2 — for every /watch request: an expired session envelope yields 401
    with body "Session expired", every other envelope-validation failure
    yields 401 with body "Invalid session token" (the two bodies are
    distinguishable), and a valid envelope whose session record does not
    exist yields 404. -/
theorem c2_watch_errors (E : Env B T) (now : Int)
    (store : String → Option RecStatus) (tok : T) :
    (validateSessionTok E now tok = .error .expiredToken →
      handleWatchCRD E now store (some tok) = ⟨401, "Session expired"⟩) ∧
    (∀ e, validateSessionTok E now tok = .error e → e ≠ .expiredToken →
      handleWatchCRD E now store (some tok) = ⟨401, "Invalid session token"⟩) ∧
    ("Session expired" ≠ "Invalid session token") ∧
    (∀ s, validateSessionTok E now tok = .ok s → store s.state = none →
      handleWatchCRD E now store (some tok) = ⟨404, "Session not found"⟩) := by
  refine ⟨fun hv => ?_, fun e hv he => ?_, by decide, fun s hv hs => ?_⟩
  · rw [handleWatchCRD]
    simp only [hv]
  · cases e with
    | invalidToken => rw [handleWatchCRD]; simp only [hv]
    | expiredToken => exact absurd rfl he
    | invalidSignature => rw [handleWatchCRD]; simp only [hv]
    | decryptFailed => rw [handleWatchCRD]; simp only [hv]
  · rw [handleWatchCRD]
    simp only [hv, hs]

/-- C2 witness — a session envelope that expired at time 5, presented at
    time 10, answers 401 "Session expired"; a valid envelope whose state
    has no record answers 404. -/
theorem c2_watch_errors_witness :
    handleWatchCRD blobEnv 10 (fun _ => none)
        (some (createSessionTok blobEnv 0 "s" "v" 0 5)) = ⟨401, "Session expired"⟩
    ∧ handleWatchCRD blobEnv 3 (fun _ => none)
        (some (createSessionTok blobEnv 0 "s" "v" 0 5)) = ⟨404, "Session not found"⟩ :=
  ⟨(c2_watch_errors blobEnv 10 (fun _ => none)
      (createSessionTok blobEnv 0 "s" "v" 0 5)).1 rfl,
   (c2_watch_errors blobEnv 3 (fun _ => none)
      (createSessionTok blobEnv 0 "s" "v" 0 5)).2.2.2
     ⟨"s", "v", 0, 5⟩ rfl rfl⟩

/-! ## Claim C1: durable store update precedes in-memory notification -/

/-- Every pending watch event in the queue was put there by an earlier
    `updateStatus` event of the run (or was pending initially). -/
theorem brokerRun_queue_from_updates {σ₀ σ : BrokerSt} {evs : List BrokerEv} :
    BrokerRun σ₀ evs σ →
    ∀ l₁ l₂ (s : String) (st : RecStatus),
      evs = l₁ ++ .notifyLocal s st :: l₂ →
      .updateStatus s st ∈ l₁ ∨ (s, st) ∈ σ₀.queue := by
  intro hrun
  induction hrun with
  | nil σ =>
    intro l₁ l₂ s st habs
    exact absurd habs.symm (by simp)
  | @cons σ σ' σ'' e es hstep _ ih =>
    intro l₁ l₂ s st heq
    rcases l₁ with _ | ⟨e₁, l₁'⟩
    · simp only [List.nil_append, List.cons.injEq] at heq
      rcases heq with ⟨he, _⟩
      subst he
      cases hstep with
      | notify _ _ hq _ => exact Or.inr hq
    · simp only [List.cons_append, List.cons.injEq] at heq
      rcases heq with ⟨he, hes⟩
      subst he
      rcases ih l₁' l₂ s st hes with hin | hq
      · exact Or.inl (List.mem_cons_of_mem _ hin)
      · cases hstep with
        | update s' st' =>
          rcases List.mem_append.mp hq with hq' | hq'
          · exact Or.inr hq'
          · simp only [List.mem_singleton, Prod.mk.injEq] at hq'
            rcases hq' with ⟨hs', hst'⟩
            subst hs'; subst hst'
            exact Or.inl (List.mem_cons_self _ _)
        | notify _ _ _ _ =>
          exact Or.inr (List.mem_of_mem_erase hq)

/-- C1 — in every run of a replica that starts with an empty watch-event
    queue, an in-memory notification `notifyLocal s st` to waiting /watch
    listeners is always preceded by the durable store write
    `updateStatus s st` of the same terminal outcome: the store update,
    not the notification, is the canonical completion signal. -/
theorem c1_store_update_before_notify {σ : BrokerSt} {evs : List BrokerEv}
    (hrun : BrokerRun ⟨[], []⟩ evs σ)
    (l₁ l₂ : List BrokerEv) (s : String) (st : RecStatus)
    (hsplit : evs = l₁ ++ .notifyLocal s st :: l₂) :
    .updateStatus s st ∈ l₁ := by
  rcases brokerRun_queue_from_updates hrun l₁ l₂ s st hsplit with h | h
  · exact h
  · exact absurd h (List.not_mem_nil _)

/-! ## Claims C7 and C8: session-record key derivation -/

/-- C7 counterexample — on the 64-character state `50×'a' ++ 13×'-' ++ 'b'`
    the code's key is `"oauth-" + 50×'a'` (the sanitizer first truncates to
    63 bytes and strips the then-trailing dashes), while the claim's
    formula `"oauth-" + truncate(sanitize(state), 57)` — with `sanitize`
    exactly the four operations the claim lists — gives
    `"oauth-" + 50×'a' + 7×'-'`. -/
theorem c7_counterexample :
    sanitizeName c7CexState
        = "oauth-".toList ++ List.replicate 50 'a' ∧
    keyClaimC7 c7CexState
        = "oauth-".toList ++ (List.replicate 50 'a' ++ List.replicate 7 '-') ∧
    sanitizeName c7CexState ≠ keyClaimC7 c7CexState := by
  refine ⟨by decide, by decide, by decide⟩

/-- C7 (amended) — the session-record key is
    `"oauth-" + truncate(sanitize(state), 57)` where `sanitize` is the
    code's `SanitizeToResourceName`: lowercase ASCII letters, map
    non-alphanumerics to '-', strip leading/trailing non-alphanumerics,
    *truncate to 63 characters and re-strip trailing non-alphanumerics*,
    and replace an empty result with "default".  In particular the empty
    state yields "oauth-default" and a 100-character all-'a' state yields
    "oauth-" followed by exactly 57 'a'. -/
theorem c7_key_formula :
    (∀ state, sanitizeName state
        = "oauth-".toList ++ (sanitizeToResourceName state).take 57) ∧
    sanitizeName [] = "oauth-default".toList ∧
    sanitizeName (List.replicate 100 'a')
      = "oauth-".toList ++ List.replicate 57 'a' := by
  refine ⟨fun state => ?_, by decide, by decide⟩
  simp only [sanitizeName]
  by_cases h : 63 < (sanitizeToResourceName state).length + 6
  · rw [if_pos h]
  · rw [if_neg h, List.take_of_length_le (by omega)]

/-- C8 — the code violates the claim (and its own doc comment and
    compliance test) at the failing input `56×'a' ++ "-" ++ 4×'b'`:
    `sanitizeName` yields `"oauth-" + 56×'a' + "-"`, which ends in a
    non-alphanumeric character (not a DNS label) and on which key
    sanitization is not idempotent: stripping the "oauth-" prefix and
    re-sanitizing drops the trailing dash. -/
theorem c8_failing_input :
    sanitizeName c8FailState
        = "oauth-".toList ++ (List.replicate 56 'a' ++ ['-']) ∧
    (sanitizeName c8FailState).getLast? = some '-' ∧
    isLowerAlnum '-' = false ∧
    sanitizeName ((sanitizeName c8FailState).drop 6)
        ≠ sanitizeName c8FailState := by
  refine ⟨by decide, by decide, by decide, by decide⟩

/-! ## Claims C9 and C10: rate limiter and CORS middleware -/

/-- C9 counterexample — with no X-Real-IP and the two-entry header
    `X-Forwarded-For: 1.2.3.4, 5.6.7.8`, the code keys the token bucket by
    the whole header value, not by the first entry the claim names. -/
theorem c9_counterexample :
    clientIP c9CexReq = "1.2.3.4, 5.6.7.8" ∧
    clientIPClaimC9 c9CexReq = "1.2.3.4" ∧
    clientIP c9CexReq ≠ clientIPClaimC9 c9CexReq := by
  refine ⟨by decide, by decide, by decide⟩

/-- C9 (amended) — the token bucket is keyed by the X-Real-IP header if
    non-empty, else the *entire* X-Forwarded-For header value, else the
    remote address; whenever the bucket denies, the response is 429 and
    the wrapped handler is not invoked, and whenever it allows, the
    response is the wrapped handler's. -/
theorem c9_rate_limiter (allow : String → Bool) (next : RLReq → HttpOut)
    (r : RLReq) :
    (r.xRealIP ≠ "" → clientIP r = r.xRealIP) ∧
    (r.xRealIP = "" → r.xForwardedFor ≠ "" → clientIP r = r.xForwardedFor) ∧
    (r.xRealIP = "" → r.xForwardedFor = "" → clientIP r = r.remoteAddr) ∧
    (allow (clientIP r) = false →
      rateLimitMiddleware allow next r = (⟨429, "Rate limit exceeded"⟩, false)) ∧
    (allow (clientIP r) = true →
      rateLimitMiddleware allow next r = (next r, true)) := by
  refine ⟨fun h => ?_, fun h1 h2 => ?_, fun h1 h2 => ?_, fun h => ?_, fun h => ?_⟩
  · simp [clientIP, h]
  · simp [clientIP, h1, h2]
  · simp [clientIP, h1, h2]
  · simp [rateLimitMiddleware, h]
  · simp [rateLimitMiddleware, h]

/-- C9 witness — the amended theorem evaluated at the concrete request:
    a denying bucket produces 429 without running the handler. -/
theorem c9_rate_limiter_witness :
    rateLimitMiddleware (fun _ => false) (fun _ => ⟨200, "ok"⟩) c9CexReq
      = (⟨429, "Rate limit exceeded"⟩, false) :=
  (c9_rate_limiter (fun _ => false) (fun _ => ⟨200, "ok"⟩) c9CexReq).2.2.2.1 rfl

/-- C10 — with a configured (non-empty) allow-list, the CORS middleware
    answers every OPTIONS request 204 with an empty body without invoking
    the wrapped handler, even when the Origin matches neither "*" nor a
    configured entry — and then it sets no Access-Control headers at
    all. -/
theorem c10_cors_options (allowedOrigins : List String)
    (next : CorsReq → HttpOut) (r : CorsReq)
    (hconf : allowedOrigins ≠ []) (hopt : r.method = "OPTIONS") :
    (corsMiddleware allowedOrigins next r).status = 204 ∧
    (corsMiddleware allowedOrigins next r).body = "" ∧
    (corsMiddleware allowedOrigins next r).nextRan = false ∧
    (allowedOrigins.contains "*" = false →
      allowedOrigins.contains r.origin = false →
      (corsMiddleware allowedOrigins next r).acHeaders = []) := by
  refine ⟨?_, ?_, ?_, fun h1 h2 => ?_⟩
  · simp [corsMiddleware, hopt]
  · simp [corsMiddleware, hopt]
  · simp [corsMiddleware, hopt]
  · rw [List.contains_eq_any_beq] at h1 h2
    simp only [List.any_eq_false, beq_iff_eq] at h1 h2
    have h1' : "*" ∉ allowedOrigins := fun hm => h1 _ hm rfl
    have h2' : r.origin ∉ allowedOrigins := fun hm => h2 _ hm rfl
    simp [corsMiddleware, hopt, h1', h2']

/-- C10 witness — a disallowed origin's OPTIONS request against the
    allow-list ["https://a"]: 204, empty body, handler not run, no
    Access-Control headers. -/
theorem c10_cors_options_witness :
    (corsMiddleware ["https://a"] (fun _ => ⟨200, "ok"⟩)
        ⟨"https://evil", "OPTIONS"⟩).status = 204 ∧
    (corsMiddleware ["https://a"] (fun _ => ⟨200, "ok"⟩)
        ⟨"https://evil", "OPTIONS"⟩).body = "" ∧
    (corsMiddleware ["https://a"] (fun _ => ⟨200, "ok"⟩)
        ⟨"https://evil", "OPTIONS"⟩).nextRan = false ∧
    (corsMiddleware ["https://a"] (fun _ => ⟨200, "ok"⟩)
        ⟨"https://evil", "OPTIONS"⟩).acHeaders = [] :=
  have h := c10_cors_options ["https://a"] (fun _ => ⟨200, "ok"⟩)
    ⟨"https://evil", "OPTIONS"⟩ (by simp) rfl
  ⟨h.1, h.2.1, h.2.2.1, h.2.2.2 (by decide) (by decide)⟩

/-- C1 witness — the two-event run «update then notify» of a ready record:
    the theorem locates the update before the notification. -/
theorem c1_store_update_before_notify_witness :
    BrokerEv.updateStatus "s" wReadyStatus
      ∈ [BrokerEv.updateStatus "s" wReadyStatus] :=
  c1_store_update_before_notify
    (BrokerRun.cons (BrokerStep.update ⟨[], []⟩ "s" wReadyStatus)
      (BrokerRun.cons
        (BrokerStep.notify ⟨[("s", wReadyStatus)], [("s", wReadyStatus)]⟩
          "s" wReadyStatus (by decide) (by decide))
        (BrokerRun.nil _)))
    [BrokerEv.updateStatus "s" wReadyStatus] [] "s" wReadyStatus rfl

end Kauth
